import Mathlib

/-!
Shallow embedding of the `current_affairs_scraper` repository
(`src/config.py`, `src/scraper.py`, `src/translator.py`,
`src/translations.py`, `src/main.py`) and verification of the
spec claims about it.

The BeautifulSoup DOM is abstracted at the granularity of the CSS
selectors the code actually uses: a `Block` records, for each selector
the code applies to a question container, whether the selected node is
present and the stripped text the code would read from it; a `Page`
records the list of `bix-div-container` blocks together with the
`alert-danger` node used by `scrape_date_wise`.  Python exceptions are
modelled with `Except String`; Python `ord` and list indexing carry
their real partiality (raising `TypeError` on non-single-character
strings, negative-index wraparound and `IndexError`).
-/

namespace CAScraper

/-! ### src/config.py -/

def MAX_RETRIES : Nat := 3

def RETRY_DELAY : Nat := 2

/-- The keyword arguments `create_session` passes to `urllib3.util.retry.Retry`
(src/scraper.py lines 28-33). -/
structure RetryConfig where
  total : Nat
  backoff_factor : Nat
  status_forcelist : List Nat
deriving Repr, DecidableEq

def create_session_retry : RetryConfig :=
  { total := MAX_RETRIES
    backoff_factor := RETRY_DELAY
    status_forcelist := [429, 500, 502, 503, 504] }

/-! ### DOM abstraction -/

/-- One `div.bix-div-container` question block, abstracted at the
selectors `extract_questions` reads from it.  `none` means the selector
matched nothing; option-container texts are the stripped texts of the
`bix-td-option-val` divs (before the code's own non-emptiness filter);
`answerValue` is `answer_input.get('value', '')` when the hidden
`input.jq-hdnakq` is present; `catLink` is `some none` when the
`explain-link` div exists but contains no `<a>`. -/
structure Block where
  qnum : Option String
  qtxt : Option String
  optionContainer : Option (List String)
  answerValue : Option String
  expDiv : Option String
  catLink : Option (Option String)
deriving Repr, DecidableEq

/-- A parsed page: the `div.bix-div-container` blocks found by
`find_all`, and the text of the `div.alert-danger` node if present. -/
structure Page where
  blocks : List Block
  alertDanger : Option String
deriving Repr, DecidableEq

/-- The record dict built at src/scraper.py lines 119-126; `date` is the
key added afterwards by `scrape_date_wise` (absent = `none`). -/
structure QuestionRecord where
  question_no : Nat
  question : String
  options : List String
  answer : String
  explanation : String
  category : String
  date : Option String
deriving Repr, DecidableEq

/-! ### Python primitives used by the extraction code -/

/-- Python `ord`: defined only on single-character strings, `TypeError`
otherwise. -/
def pyOrd (s : String) : Except String Int :=
  match s.data with
  | [c] => .ok (c.toNat : Int)
  | _ => .error "TypeError: ord expected a character"

/-- Python list subscription `l[i]`: negative indices wrap from the
end; out of range raises `IndexError`. -/
def pyListGet (l : List String) (i : Int) : Except String String :=
  let n : Int := l.length
  let j : Int := if i < 0 then i + n else i
  if h : 0 ≤ j ∧ j < n then
    .ok (l.get ⟨j.toNat, by omega⟩)
  else
    .error "IndexError: list index out of range"

/-- Python substring test `needle in hay` on char lists. -/
def pyInChars (needle : List Char) : List Char → Bool
  | [] => needle.isEmpty
  | c :: rest => needle.isPrefixOf (c :: rest) || pyInChars needle rest

/-- Python `needle in hay` for strings. -/
def pyInStr (needle hay : String) : Bool :=
  pyInChars needle.data hay.data

/-! ### src/scraper.py : extract_questions -/

/-- The default answer string (src/scraper.py line 94). -/
def notAvailable : String := "Not available"

/-- The answer computation of src/scraper.py lines 93-103: start from
the `"Not available"` default; when the hidden input is present, read
its value; when the value is truthy and `len(options) >= ord(value) -
ord('A') + 1`, resolve to `"Option {v}: {options[index]}"`, else fall
back to `"Option {v}"`.  `ord` of a non-single-character value and
negative-index `IndexError` propagate as exceptions (to be caught by
the per-block handler). -/
def answerOf (options : List String) (answerValue : Option String) : Except String String :=
  match answerValue with
  | none => .ok notAvailable
  | some v =>
    if v = "" then
      .ok ("Option " ++ v)
    else
      match pyOrd v with
      | .error e => .error e
      | .ok o =>
        if (options.length : Int) ≥ o - ('A'.toNat : Int) + 1 then
          match pyListGet options (o - ('A'.toNat : Int)) with
          | .error e => .error e
          | .ok opt => .ok ("Option " ++ v ++ ": " ++ opt)
        else
          .ok ("Option " ++ v)

/-- The options collection of src/scraper.py lines 84-91: with no
`bix-tbl-options` container the list stays empty; otherwise the
stripped option texts are kept when truthy (non-empty). -/
def optionsOf (b : Block) : List String :=
  match b.optionContainer with
  | none => []
  | some opts => opts.filter (fun t => t ≠ "")

/-- The explanation of src/scraper.py lines 106-109: empty string when
no `bix-ans-description` div is found. -/
def explanationOf (b : Block) : String :=
  match b.expDiv with
  | some e => e
  | none => ""

/-- The category of src/scraper.py lines 112-117: the text of the `<a>`
inside the `explain-link` div when both exist, else the empty string. -/
def categoryOf (b : Block) : String :=
  match b.catLink with
  | some (some c) => c
  | _ => ""

/-- The body of the per-block loop of `extract_questions`
(src/scraper.py lines 73-130) for the block at 1-based index `idx`:
`.ok none` models the `continue` for a block with no
`div.bix-td-qtxt`; `.error` models an exception reaching the per-block
`except` handler; `.ok (some r)` models appending `r` to
`questions_data`. -/
def extractBlock (idx : Nat) (b : Block) : Except String (Option QuestionRecord) :=
  match b.qtxt with
  | none => .ok none
  | some question_text =>
    match answerOf (optionsOf b) b.answerValue with
    | .error e => .error e
    | .ok answer =>
      .ok (some { question_no := idx
                  question := question_text
                  options := optionsOf b
                  answer := answer
                  explanation := explanationOf b
                  category := categoryOf b
                  date := none })

/-- The `for idx, block in enumerate(question_blocks, 1)` loop: a block
whose body `continue`s or raises contributes no record but still
advances `idx`. -/
def extractLoop : Nat → List Block → List QuestionRecord
  | _, [] => []
  | idx, b :: rest =>
    match extractBlock idx b with
    | .ok (some r) => r :: extractLoop (idx + 1) rest
    | .ok none => extractLoop (idx + 1) rest
    | .error _ => extractLoop (idx + 1) rest

/-- Function `extract_questions` (src/scraper.py lines 58-140): empty container
match returns the empty list (after a `logger.warning`), otherwise the
per-block loop runs with the per-block exception handler skipping
failing blocks. -/
def extract_questions (page : Page) : List QuestionRecord :=
  if page.blocks.isEmpty then [] else extractLoop 1 page.blocks

/-- True exactly when `extract_questions` executes its
`logger.warning("No question blocks found on page")` branch
(src/scraper.py line 67). -/
def extract_questions_warns (page : Page) : Bool :=
  page.blocks.isEmpty

/-! ### src/scraper.py : fetch_page with the session retry policy

The transport is abstracted as a map from the attempt number to the
(status code, parsed body) the server would produce on that attempt.
`retryGet` is the urllib3 `Retry` loop configured by `create_session`:
a response whose status is in `status_forcelist` consumes one retry
(raising `MaxRetryError` once `total` retries are spent), any other
response is returned as-is. -/

/-- One session `get` through the mounted `HTTPAdapter`: `attempt` is
the index of the request about to be issued, `retriesLeft` the
remaining `Retry` budget. -/
def retryGet (transport : Nat → Nat × Page) : Nat → Nat → Except String (Nat × Page)
  | attempt, retriesLeft =>
    let resp := transport attempt
    if resp.1 ∈ create_session_retry.status_forcelist then
      match retriesLeft with
      | 0 => .error "MaxRetryError"
      | r + 1 => retryGet transport (attempt + 1) r
    else
      .ok resp

/-- Function `fetch_page` (src/scraper.py lines 42-55): run the session get with
the configured retry budget; a `requests.exceptions.RequestException`
(retry exhaustion, or `raise_for_status` on a 4xx/5xx final response)
is caught and turned into `None`; otherwise the parsed body is
returned. -/
def fetch_page (transport : Nat → Nat × Page) : Option Page :=
  match retryGet transport 0 create_session_retry.total with
  | .error _ => none
  | .ok resp => if 400 ≤ resp.1 then none else some resp.2

/-! ### src/scraper.py : scrape_date_wise / scrape_weekly_questions -/

/-- The 404 check of src/scraper.py lines 155-156: an `alert-danger`
div whose lowercased text contains `"not found"`. -/
def notFoundAlert (soup : Page) : Bool :=
  match soup.alertDanger with
  | some t => pyInStr "not found" t.toLower
  | none => false

/-- Function `scrape_date_wise` (src/scraper.py lines 143-167), with the network
fetch already resolved to `fetched : Option Page` and the date already
formatted as its ISO `YYYY-MM-DD` string: a failed fetch or a
not-found page yields `[]`; otherwise the extracted records are each
stamped with the date string. -/
def scrape_date_wise (fetched : Option Page) (dateStr : String) : List QuestionRecord :=
  match fetched with
  | none => []
  | some soup =>
    if notFoundAlert soup then []
    else (extract_questions soup).map (fun q => { q with date := some dateStr })

/-- Function `scrape_weekly_questions` (src/scraper.py lines 170-181): fold the
per-date results with `all_questions.extend(questions)`.  `fetch` maps
a date string to the outcome of `fetch_page` for that date's URL. -/
def scrape_weekly_questions (fetch : String → Option Page) (dates : List String) : List QuestionRecord :=
  dates.foldl (fun acc d => acc ++ scrape_date_wise (fetch d) d) []

/-! ### src/translator.py : DeepTranslatorGU

The underlying `GoogleTranslator.translate` network call is abstracted
as an oracle `call : Nat → String → Except String String`, indexed by
the attempt number within one `translate_text_with_retry` loop; a
`.error` models the call raising (which is also what happens on every
call when `self.translator` is `None`). -/

/-- The box characters of `_has_boxes` (src/translator.py line 76). -/
def box_chars : List Char := ['□', '▯', '◻', '▢']

/-- Method `_has_boxes` (src/translator.py lines 73-77). -/
def has_boxes (text : String) : Bool :=
  box_chars.any (fun c => text.contains c)

/-- The chunking `[text[i:i+4500] for i in range(0, len(text), 4500)]`
on character lists. -/
def chunkChars (l : List Char) : List (List Char) :=
  if _h : l = [] then []
  else
    (l.take 4500) :: chunkChars (l.drop 4500)
termination_by l.length
decreasing_by
  simp only [List.length_drop]
  have : l.length ≠ 0 := fun hn => _h (List.length_eq_zero.mp hn)
  omega

/-- String chunks of at most 4500 characters. -/
def pyStrChunks (s : String) : List String :=
  (chunkChars s.data).map (fun cs => String.mk cs)

/-- The `for chunk in chunks` loop of src/translator.py lines 40-46: a
chunk whose translation has boxes or is falsy keeps the original
chunk; a raising call propagates out of the loop. -/
def translateChunks (call : String → Except String String) : List String → Except String (List String)
  | [] => .ok []
  | chunk :: rest =>
    match call chunk with
    | .error e => .error e
    | .ok translated =>
      match translateChunks call rest with
      | .error e => .error e
      | .ok others =>
        .ok ((if has_boxes translated || translated = "" then chunk else translated) :: others)

/-- One iteration of the `for attempt in range(max_retries)` try-body
(src/translator.py lines 33-57): long texts are translated chunkwise
and joined with `' '`; short texts keep the original text when the
translation has boxes.  A raising underlying call propagates (to the
attempt-level handler). -/
def attemptOnce (call : String → Except String String) (text : String) : Except String String :=
  if text.length > 4500 then
    match translateChunks call (pyStrChunks text) with
    | .error e => .error e
    | .ok translated_chunks => .ok (String.intercalate " " translated_chunks)
  else
    (call text).map (fun translated => if has_boxes translated then text else translated)

/-- The attempt loop of `translate_text_with_retry`: `attempts` is the
remaining list of attempt indices (`range(max_retries)` at the top); a
raising attempt falls back to the original text when it was the last
one, else retries (after a sleep). -/
def ttwrGo (call : Nat → String → Except String String) (text : String) : List Nat → String
  | [] => text
  | a :: rest =>
    match attemptOnce (call a) text with
    | .ok s => s
    | .error _ =>
      match rest with
      | [] => text
      | _ :: _ => ttwrGo call text rest

/-- Method `translate_text_with_retry` (src/translator.py lines 26-71). -/
def translate_text_with_retry (call : Nat → String → Except String String)
    (text : String) (max_retries : Nat) : String :=
  if text = "" || text.trim = "" then text
  else ttwrGo call text (List.range max_retries)

/-- Method `DeepTranslatorGU.translate_question` (src/translator.py lines
79-131) as explicit state passing over the pair of Python locals
`(question, translated)`: the method starts from `translated =
question.copy()` and every assignment in its body writes only into
`translated`; the except handler is unreachable in the model because
`translate_text_with_retry` is total. -/
def translate_question_state (call : Nat → String → Except String String)
    (st : QuestionRecord × QuestionRecord) : QuestionRecord × QuestionRecord :=
  let question := st.1
  let translated := st.2
  let translated :=
    { translated with question := translate_text_with_retry call question.question 3 }
  let translated :=
    { translated with
        options := question.options.map (fun opt => translate_text_with_retry call opt 3) }
  let translated :=
    { translated with answer := translate_text_with_retry call question.answer 3 }
  let translated :=
    if question.explanation ≠ "" then
      { translated with explanation := translate_text_with_retry call question.explanation 3 }
    else translated
  let translated :=
    if question.category ≠ "" then
      { translated with category := translate_text_with_retry call question.category 3 }
    else translated
  (question, translated)

/-- The value `DeepTranslatorGU.translate_question` returns. -/
def translate_question (call : Nat → String → Except String String)
    (q : QuestionRecord) : QuestionRecord :=
  (translate_question_state call (q, q)).2

/-! ### src/translations.py : Translator -/

/-- Method `Translator.translate` (src/translations.py lines 17-43): `client`
says whether `__init__` managed to keep a client; the API call is an
oracle returning `.ok none` when the response has no translations,
`.ok (some t)` for a translated text, `.error` when it raises.  Empty
or whitespace-only text, a missing client, an empty response and a
raising call all fall back to the original text. -/
def translations_translate (client : Bool)
    (call : String → Except String (Option String)) (text : String) : String :=
  if text = "" || text.trim = "" then text
  else if client = false then text
  else
    match call text with
    | .error _ => text
    | .ok none => text
    | .ok (some t) => t

/-- Method `Translator.translate_question` (src/translations.py lines 45-63):
copy the record, then overwrite each translatable key with
`self.translate` of its value. -/
def translations_translate_question (client : Bool)
    (call : String → Except String (Option String)) (q : QuestionRecord) : QuestionRecord :=
  { q with
    question := translations_translate client call q.question
    options := q.options.map (fun o => translations_translate client call o)
    answer := translations_translate client call q.answer
    explanation := translations_translate client call q.explanation
    category := translations_translate client call q.category }

/-! ### src/main.py : the post-scrape step -/

/-- A Python value that is either a list of records or a dict keyed by
source name, for typing the result `main` receives from
`scrape_weekly_questions`. -/
inductive PyVal where
  | pylist (qs : List QuestionRecord)
  | pydict (entries : List (String × List QuestionRecord))
deriving Repr

/-- Python attribute access `.values()`: defined on dicts, raises
`AttributeError` on lists. -/
def pyValues : PyVal → Except String (List (List QuestionRecord))
  | .pydict es => .ok (es.map (fun e => e.2))
  | .pylist _ => .error "AttributeError: list object has no attribute values"

/-- The value `scrape_weekly_questions` hands to `main`: the function
body builds and returns the plain list `all_questions`. -/
def scrape_weekly_questions_value (fetch : String → Option Page) (dates : List String) : PyVal :=
  .pylist (scrape_weekly_questions fetch dates)

/-- The first statement of `main` that consumes the scrape result
(src/main.py line 34): `if not any(scraped_data_map.values())`.  Later
statements of `main` are unreachable whenever this raises, so they are
not modelled. -/
def main_post_scrape (scraped : PyVal) : Except String Bool :=
  match pyValues scraped with
  | .error e => .error e
  | .ok vs => .ok (vs.any (fun qs => ¬ qs.isEmpty))

/-- The body of `main`'s top-level `try` from the scrape call onward. -/
def main_run (fetch : String → Option Page) (dates : List String) : Except String Bool :=
  main_post_scrape (scrape_weekly_questions_value fetch dates)

/-- Observable termination of `main`: the top-level except handler turns
any exception into `sys.exit(1)`; a normal return exits 0. -/
def main_exit (fetch : String → Option Page) (dates : List String) : Nat :=
  match main_run fetch dates with
  | .error _ => 1
  | .ok _ => 0

/-! ### Concrete pages and records used to instantiate the claims -/

/-- A block carrying only a question text, all other selectors absent. -/
def bareBlock (q : String) : Block :=
  { qnum := none, qtxt := some q, optionContainer := none, answerValue := none,
    expDiv := none, catLink := none }

/-- A page whose first block has no `bix-td-qtxt` div and whose second
block is valid. -/
def gapPage : Page :=
  { blocks := [{ qnum := none, qtxt := none, optionContainer := none,
                 answerValue := none, expDiv := none, catLink := none },
               bareBlock "Q2"],
    alertDanger := none }

/-- The single record `extract_questions` produces from `gapPage`:
extracted from the second block, hence numbered 2. -/
def gapRecord : QuestionRecord :=
  { question_no := 2, question := "Q2", options := [], answer := "Not available",
    explanation := "", category := "", date := none }

/-- A page with two valid blocks. -/
def twoValidPage : Page :=
  { blocks := [bareBlock "Q1", bareBlock "Q2"], alertDanger := none }

/-- The three-options block with encoded answer `"B"`. -/
def letterBBlock : Block :=
  { qnum := none, qtxt := some "Capital of the UK?",
    optionContainer := some ["Paris", "London", "Rome"],
    answerValue := some "B", expDiv := none, catLink := none }

/-- The three-options block with encoded answer `"Z"`. -/
def letterZBlock : Block :=
  { qnum := none, qtxt := some "Capital of the UK?",
    optionContainer := some ["Paris", "London", "Rome"],
    answerValue := some "Z", expDiv := none, catLink := none }

/-- A page with no `bix-div-container` match at all. -/
def noBlocksPage : Page := { blocks := [], alertDanger := none }

/-- A block whose hidden answer value is not a single character, so
`ord` raises inside the per-block body. -/
def ordErrorBlock : Block :=
  { qnum := none, qtxt := some "q", optionContainer := none,
    answerValue := some "AB", expDiv := none, catLink := none }

/-- A block with a question text but no hidden answer input. -/
def noAnswerBlock : Block :=
  { qnum := none, qtxt := some "Unanswered?", optionContainer := some ["a", "b"],
    answerValue := none, expDiv := some "expl", catLink := some (some "History") }

/-- A page whose single block has a `bix-td-qtxt` div that strips to
the empty string. -/
def emptyQuestionPage : Page :=
  { blocks := [bareBlock ""], alertDanger := none }

/-- A page with one valid block, for witnessing the block-origin
property of returned records. -/
def oneValidPage : Page :=
  { blocks := [bareBlock "W?"], alertDanger := none }

/-- The record `extract_questions` produces from `oneValidPage`. -/
def oneValidRecord : QuestionRecord :=
  { question_no := 1, question := "W?", options := [], answer := "Not available",
    explanation := "", category := "", date := none }

/-- The page served for 2024-02-20 in the weekly-scrape scenario:
three valid question blocks. -/
def feb20Page : Page :=
  { blocks := [bareBlock "q1", bareBlock "q2", bareBlock "q3"], alertDanger := none }

/-- The fetch oracle of the weekly-scrape scenario: 2024-02-20 resolves
to `feb20Page`, every other date (in particular 2024-02-21, after retry
exhaustion) is Absent. -/
def scenarioFetch : String → Option Page :=
  fun d => if d = "2024-02-20" then some feb20Page else none

/-- The date range of the weekly-scrape scenario. -/
def scenarioDates : List String := ["2024-02-20", "2024-02-21"]

/-- A fully populated record for exercising the translator. -/
def sampleRecord : QuestionRecord :=
  { question_no := 4, question := "Who?", options := ["x", "y"],
    answer := "Option A: x", explanation := "because", category := "Economy",
    date := some "2024-02-20" }

/-! ### Helper lemmas about the extraction loop -/

theorem extractBlock_question_no (idx : Nat) (b : Block) (r : QuestionRecord)
    (h : extractBlock idx b = .ok (some r)) : r.question_no = idx := by
  unfold extractBlock at h
  split at h
  · simp at h
  · split at h
    · simp at h
    · simp only [Except.ok.injEq, Option.some.injEq] at h
      subst h
      rfl

theorem extractBlock_question_text (idx : Nat) (b : Block) (r : QuestionRecord)
    (h : extractBlock idx b = .ok (some r)) : b.qtxt = some r.question := by
  unfold extractBlock at h
  split at h
  next hq => simp at h
  next question_text hq =>
    split at h
    · simp at h
    · simp only [Except.ok.injEq, Option.some.injEq] at h
      subst h
      exact hq

theorem extractLoop_question_no_sublist (blocks : List Block) : ∀ idx : Nat,
    ((extractLoop idx blocks).map QuestionRecord.question_no).Sublist
      (List.range' idx blocks.length) := by
  induction blocks with
  | nil => intro idx; simp [extractLoop]
  | cons b rest ih =>
    intro idx
    rw [List.length_cons, List.range'_succ]
    cases hb : extractBlock idx b with
    | error e =>
      simpa only [extractLoop, hb] using (ih (idx + 1)).cons idx
    | ok o =>
      cases o with
      | none =>
        simpa only [extractLoop, hb] using (ih (idx + 1)).cons idx
      | some r =>
        have hr : r.question_no = idx := extractBlock_question_no idx b r hb
        simp only [extractLoop, hb, List.map_cons, hr]
        exact (ih (idx + 1)).cons₂ idx

theorem extractLoop_mem_position (blocks : List Block) : ∀ (idx : Nat) (r : QuestionRecord),
    r ∈ extractLoop idx blocks →
    ∃ (i : Nat) (hi : i < blocks.length),
      r.question_no = idx + i ∧
      extractBlock (idx + i) (blocks.get ⟨i, hi⟩) = .ok (some r) := by
  induction blocks with
  | nil => intro idx r h; simp [extractLoop] at h
  | cons b rest ih =>
    intro idx r h
    cases hb : extractBlock idx b with
    | error e =>
      simp only [extractLoop, hb] at h
      obtain ⟨i, hi, hno, hex⟩ := ih (idx + 1) r h
      refine ⟨i + 1, by simpa using Nat.succ_lt_succ hi, by omega, ?_⟩
      have e1 : idx + (i + 1) = (idx + 1) + i := by omega
      rw [e1]
      exact hex
    | ok o =>
      cases o with
      | none =>
        simp only [extractLoop, hb] at h
        obtain ⟨i, hi, hno, hex⟩ := ih (idx + 1) r h
        refine ⟨i + 1, by simpa using Nat.succ_lt_succ hi, by omega, ?_⟩
        have e1 : idx + (i + 1) = (idx + 1) + i := by omega
        rw [e1]
        exact hex
      | some r' =>
        simp only [extractLoop, hb, List.mem_cons] at h
        cases h with
        | inl h =>
          subst h
          refine ⟨0, by simp, ?_, ?_⟩
          · simpa using extractBlock_question_no idx b r hb
          · simpa using hb
        | inr h =>
          obtain ⟨i, hi, hno, hex⟩ := ih (idx + 1) r h
          refine ⟨i + 1, by simpa using Nat.succ_lt_succ hi, by omega, ?_⟩
          have e1 : idx + (i + 1) = (idx + 1) + i := by omega
          rw [e1]
          exact hex

theorem extractLoop_mem_origin (blocks : List Block) : ∀ (idx : Nat) (r : QuestionRecord),
    r ∈ extractLoop idx blocks → ∃ b, b ∈ blocks ∧ b.qtxt = some r.question := by
  induction blocks with
  | nil => intro idx r h; simp [extractLoop] at h
  | cons b rest ih =>
    intro idx r h
    cases hb : extractBlock idx b with
    | error e =>
      simp only [extractLoop, hb] at h
      obtain ⟨b', hb', hq⟩ := ih (idx + 1) r h
      exact ⟨b', List.mem_cons_of_mem _ hb', hq⟩
    | ok o =>
      cases o with
      | none =>
        simp only [extractLoop, hb] at h
        obtain ⟨b', hb', hq⟩ := ih (idx + 1) r h
        exact ⟨b', List.mem_cons_of_mem _ hb', hq⟩
      | some r' =>
        simp only [extractLoop, hb, List.mem_cons] at h
        cases h with
        | inl h =>
          subst h
          exact ⟨b, List.mem_cons_self b rest, extractBlock_question_text idx b r hb⟩
        | inr h =>
          obtain ⟨b', hb', hq⟩ := ih (idx + 1) r h
          exact ⟨b', List.mem_cons_of_mem _ hb', hq⟩

/-! ### Claim theorems -/

/-- C1 counterexample: on a page whose first block has no question-text
div and whose second block is valid, `extract_questions` returns one
record, and its `question_no` is `2`, not the `1..N = [1]` the claim
requires — skipped blocks leave gaps in the numbering. -/
theorem question_no_gap_counterexample :
    (extract_questions gapPage).map QuestionRecord.question_no = [2] ∧
    (extract_questions gapPage).length = 1 ∧
    (extract_questions gapPage).map QuestionRecord.question_no ≠
      List.range' 1 ((extract_questions gapPage).length) := by
  refine ⟨rfl, rfl, ?_⟩
  decide

/-- C1 (amended): every record returned by `extract_questions` is the
extraction of one of the page's blocks at that block's 1-based
position `i + 1` among all blocks found (valid and invalid alike), and
carries exactly that position as its `question_no`; consequently the
`question_no` values form a strictly increasing sublist of `[1..B]`
for `B` the number of blocks, and when no block is skipped (record
count = block count) they are exactly `1..N`.  A skipped block before
a valid one leaves a gap, so the i-th returned record need not carry
sequence number i. -/
theorem question_no_block_position (page : Page) :
    (∀ r ∈ extract_questions page,
      ∃ (i : Nat) (hi : i < page.blocks.length),
        r.question_no = i + 1 ∧
        extractBlock (i + 1) (page.blocks.get ⟨i, hi⟩) = .ok (some r)) ∧
    ((extract_questions page).map QuestionRecord.question_no).Sublist
      (List.range' 1 page.blocks.length) ∧
    ((extract_questions page).length = page.blocks.length →
      (extract_questions page).map QuestionRecord.question_no =
        List.range' 1 ((extract_questions page).length)) := by
  have hpos : ∀ r ∈ extract_questions page,
      ∃ (i : Nat) (hi : i < page.blocks.length),
        r.question_no = i + 1 ∧
        extractBlock (i + 1) (page.blocks.get ⟨i, hi⟩) = .ok (some r) := by
    intro r hr
    unfold extract_questions at hr
    split at hr
    · simp at hr
    · obtain ⟨i, hi, hno, hex⟩ := extractLoop_mem_position page.blocks 1 r hr
      have e1 : 1 + i = i + 1 := by omega
      rw [e1] at hno hex
      exact ⟨i, hi, hno, hex⟩
  have hsub : ((extract_questions page).map QuestionRecord.question_no).Sublist
      (List.range' 1 page.blocks.length) := by
    unfold extract_questions
    split
    · simp
    · exact extractLoop_question_no_sublist page.blocks 1
  refine ⟨hpos, hsub, fun hlen => ?_⟩
  have hmap : ((extract_questions page).map QuestionRecord.question_no).length =
      (List.range' 1 page.blocks.length).length := by
    rw [List.length_map, List.length_range', hlen]
  rw [hsub.eq_of_length hmap, hlen]

/-- C1 witness: on the gap page the returned record is the extraction
of the second block (0-based index 1) and carries its position 2 as
`question_no`; and a page with two valid blocks has record count equal
to block count with numbering exactly `1..2`. -/
theorem question_no_block_position_witness :
    (gapRecord ∈ extract_questions gapPage ∧
      ∃ (i : Nat) (hi : i < gapPage.blocks.length),
        gapRecord.question_no = i + 1 ∧
        extractBlock (i + 1) (gapPage.blocks.get ⟨i, hi⟩) = .ok (some gapRecord)) ∧
    ((extract_questions twoValidPage).length = twoValidPage.blocks.length ∧
      (extract_questions twoValidPage).map QuestionRecord.question_no =
        List.range' 1 ((extract_questions twoValidPage).length)) :=
  ⟨⟨by decide, (question_no_block_position gapPage).1 gapRecord (by decide)⟩,
   ⟨by decide, (question_no_block_position twoValidPage).2.2 (by decide)⟩⟩

/-- C3: with options `["Paris","London","Rome"]`, encoded answer `"B"`
resolves to `"Option B: London"`, while `"Z"` (index out of range)
falls back to the raw-token form `"Option Z"` without an exception. -/
theorem answer_letter_resolution :
    (extractBlock 1 letterBBlock).map (Option.map QuestionRecord.answer) =
      .ok (some "Option B: London") ∧
    (extractBlock 1 letterZBlock).map (Option.map QuestionRecord.answer) =
      .ok (some "Option Z") :=
  ⟨rfl, rfl⟩

/-- C5: a page on which the question-block container selector matches
nothing makes `extract_questions` return the empty list and take its
warning-log branch; and the per-block exception handler swallows any
exception a block raises (the loop just moves on), so the embedding of
`extract_questions` is a total function — it never raises. -/
theorem extract_empty_container (page : Page) :
    (page.blocks = [] →
      extract_questions page = [] ∧ extract_questions_warns page = true) ∧
    (∀ (idx : Nat) (b : Block) (rest : List Block) (e : String),
      extractBlock idx b = .error e →
      extractLoop idx (b :: rest) = extractLoop (idx + 1) rest) := by
  constructor
  · intro h
    constructor
    · simp [extract_questions, h]
    · simp [extract_questions_warns, h]
  · intro idx b rest e hb
    simp [extractLoop, hb]

/-- C5 witness: the empty page yields `[]` with the warning, and a
block whose hidden answer value `"AB"` makes `ord` raise is skipped by
the loop. -/
theorem extract_empty_container_witness :
    (noBlocksPage.blocks = [] ∧ extract_questions noBlocksPage = [] ∧
      extract_questions_warns noBlocksPage = true) ∧
    (extractBlock 1 ordErrorBlock = .error "TypeError: ord expected a character" ∧
      extractLoop 1 (ordErrorBlock :: []) = extractLoop 2 []) :=
  ⟨⟨rfl, (extract_empty_container noBlocksPage).1 rfl⟩,
   ⟨rfl, (extract_empty_container noBlocksPage).2 1 ordErrorBlock []
      "TypeError: ord expected a character" rfl⟩⟩

/-- C6: a block with a question text but no hidden answer input yields
(without raising — the result is an `.ok`) a record whose answer is the
`"Not available"` sentinel, which is not the empty string. -/
theorem answer_sentinel_default (idx : Nat) (b : Block) (q : String)
    (hq : b.qtxt = some q) (ha : b.answerValue = none) :
    (extractBlock idx b).map (Option.map QuestionRecord.answer) =
      .ok (some notAvailable) ∧
    notAvailable = "Not available" ∧ notAvailable ≠ "" := by
  refine ⟨?_, rfl, by decide⟩
  simp only [extractBlock, hq, answerOf, ha]
  rfl

/-- C6 witness: the sentinel default at a concrete block with options
and explanation present but no answer input. -/
theorem answer_sentinel_default_witness :
    noAnswerBlock.qtxt = some "Unanswered?" ∧ noAnswerBlock.answerValue = none ∧
    ((extractBlock 1 noAnswerBlock).map (Option.map QuestionRecord.answer) =
      .ok (some notAvailable) ∧
     notAvailable = "Not available" ∧ notAvailable ≠ "") :=
  ⟨rfl, rfl, answer_sentinel_default 1 noAnswerBlock "Unanswered?" rfl rfl⟩

/-- C7 counterexample: a block whose `bix-td-qtxt` div strips to the
empty string is not discarded — `extract_questions` returns a record
whose question text is empty. -/
theorem empty_question_counterexample :
    (extract_questions emptyQuestionPage).map QuestionRecord.question = [""] ∧
    (extract_questions emptyQuestionPage).length = 1 :=
  ⟨rfl, rfl⟩

/-- C7 (amended): every record returned by `extract_questions` comes
from a block that has a `bix-td-qtxt` element — blocks without one are
discarded — and the record's question equals that element's stripped
text, which the code does not check for non-emptiness. -/
theorem record_question_from_block (page : Page) (r : QuestionRecord)
    (h : r ∈ extract_questions page) :
    ∃ b, b ∈ page.blocks ∧ b.qtxt = some r.question := by
  unfold extract_questions at h
  split at h
  · simp at h
  · exact extractLoop_mem_origin page.blocks 1 r h

/-- C7 witness: the single record of `oneValidPage` originates in its
single block's question-text div. -/
theorem record_question_from_block_witness :
    oneValidRecord ∈ extract_questions oneValidPage ∧
    ∃ b, b ∈ oneValidPage.blocks ∧ b.qtxt = some oneValidRecord.question :=
  ⟨by decide, record_question_from_block oneValidPage oneValidRecord (by decide)⟩

/-! ### Helper lemmas about the retry loop -/

theorem retryGet_stop (t : Nat → Nat × Page) (a r : Nat)
    (h : (t a).1 ∉ create_session_retry.status_forcelist) :
    retryGet t a r = .ok (t a) := by
  unfold retryGet
  simp only [if_neg h]

theorem retryGet_step (t : Nat → Nat × Page) (a r : Nat)
    (h : (t a).1 ∈ create_session_retry.status_forcelist) :
    retryGet t a (r + 1) = retryGet t (a + 1) r := by
  conv_lhs => unfold retryGet
  simp only [if_pos h]

theorem retryGet_exhaust_zero (t : Nat → Nat × Page) (a : Nat)
    (h : (t a).1 ∈ create_session_retry.status_forcelist) :
    retryGet t a 0 = .error "MaxRetryError" := by
  unfold retryGet
  simp only [if_pos h]

theorem retryGet_success_at (t : Nat → Nat × Page) :
    ∀ (k r a : Nat), k ≤ r →
    (∀ j, j < k → (t (a + j)).1 ∈ create_session_retry.status_forcelist) →
    (t (a + k)).1 ∉ create_session_retry.status_forcelist →
    retryGet t a r = .ok (t (a + k)) := by
  intro k
  induction k with
  | zero =>
    intro r a _ _ hok
    simpa using retryGet_stop t a r (by simpa using hok)
  | succ k ih =>
    intro r a hkr hfail hok
    obtain ⟨r', rfl⟩ : ∃ r', r = r' + 1 := ⟨r - 1, by omega⟩
    rw [retryGet_step t a r' (by simpa using hfail 0 (by omega))]
    have h1 : ∀ j, j < k → (t (a + 1 + j)).1 ∈ create_session_retry.status_forcelist := by
      intro j hj
      have := hfail (j + 1) (by omega)
      simpa [show a + (j + 1) = a + 1 + j by omega] using this
    have h2 : (t (a + 1 + k)).1 ∉ create_session_retry.status_forcelist := by
      simpa [show a + 1 + k = a + (k + 1) by omega] using hok
    have := ih r' (a + 1) (by omega) h1 h2
    simpa [show a + 1 + k = a + (k + 1) by omega] using this

theorem retryGet_exhaust (t : Nat → Nat × Page) :
    ∀ (r a : Nat),
    (∀ j, j ≤ r → (t (a + j)).1 ∈ create_session_retry.status_forcelist) →
    retryGet t a r = .error "MaxRetryError" := by
  intro r
  induction r with
  | zero =>
    intro a h
    exact retryGet_exhaust_zero t a (by simpa using h 0 (Nat.le_refl 0))
  | succ r ih =>
    intro a h
    rw [retryGet_step t a r (by simpa using h 0 (by omega))]
    exact ih (a + 1) (fun j hj => by
      simpa [show a + 1 + j = a + (j + 1) by omega] using h (j + 1) (by omega))

/-- C4: `create_session` configures retries exactly on the transient
statuses 429, 500, 502, 503, 504 with `backoff_factor = RETRY_DELAY`
(a positive backoff between attempts) and `total = MAX_RETRIES = 3`;
a transport whose first `k ≤ MAX_RETRIES` responses are retryable and
whose next response is not makes the session return that response
without exhausting the budget — `fetch_page` then yields the parsed
page for a success status and `None` (not an exception) for a
non-retryable failure status; a transport that stays retryable through
the whole budget exhausts it and `fetch_page` returns `None`. -/
theorem fetch_retry_policy :
    (create_session_retry.status_forcelist = [429, 500, 502, 503, 504] ∧
     create_session_retry.total = MAX_RETRIES ∧ MAX_RETRIES = 3 ∧
     create_session_retry.backoff_factor = RETRY_DELAY ∧
     0 < create_session_retry.backoff_factor) ∧
    (∀ (t : Nat → Nat × Page) (k : Nat), k ≤ MAX_RETRIES →
      (∀ j, j < k → (t j).1 ∈ create_session_retry.status_forcelist) →
      (t k).1 ∉ create_session_retry.status_forcelist →
      retryGet t 0 create_session_retry.total = .ok (t k) ∧
      ((t k).1 < 400 → fetch_page t = some (t k).2) ∧
      (400 ≤ (t k).1 → fetch_page t = none)) ∧
    (∀ t : Nat → Nat × Page,
      (∀ j, j ≤ MAX_RETRIES → (t j).1 ∈ create_session_retry.status_forcelist) →
      fetch_page t = none) := by
  refine ⟨⟨rfl, rfl, rfl, rfl, by decide⟩, ?_, ?_⟩
  · intro t k hk hfail hok
    have hret : retryGet t 0 create_session_retry.total = .ok (t k) := by
      have := retryGet_success_at t k create_session_retry.total 0 hk
        (fun j hj => by simpa using hfail j hj) (by simpa using hok)
      simpa using this
    refine ⟨hret, ?_, ?_⟩
    · intro hlt
      unfold fetch_page
      rw [hret]
      simp only [if_neg (by omega : ¬ 400 ≤ (t k).1)]
    · intro hge
      unfold fetch_page
      rw [hret]
      simp only [if_pos hge]
  · intro t h
    have hret : retryGet t 0 create_session_retry.total = .error "MaxRetryError" :=
      retryGet_exhaust t create_session_retry.total 0
        (fun j hj => by simpa using h j hj)
    unfold fetch_page
    rw [hret]

/-- C4 witness: a transport answering 503, 503 then 200 succeeds on its
third attempt with the parsed page; a transport that always answers
503 exhausts the 3 retries and `fetch_page` returns `None`. -/
theorem fetch_retry_policy_witness :
    retryGet (fun n => if n < 2 then (503, noBlocksPage) else (200, feb20Page)) 0
      create_session_retry.total = .ok (200, feb20Page) ∧
    fetch_page (fun n => if n < 2 then (503, noBlocksPage) else (200, feb20Page)) =
      some feb20Page ∧
    fetch_page (fun _ => (503, noBlocksPage)) = none := by
  have h2 := (fetch_retry_policy.2.1 (fun n => if n < 2 then (503, noBlocksPage) else (200, feb20Page))
      2 (by decide)
      (fun j hj => by interval_cases j <;> decide)
      (by decide))
  refine ⟨by simpa using h2.1, by simpa using h2.2.1 (by decide), ?_⟩
  exact fetch_retry_policy.2.2 (fun _ => (503, noBlocksPage))
    (fun j _ => show (503 : Nat) ∈ create_session_retry.status_forcelist by decide)

/-- C2: over the date list `[2024-02-20, 2024-02-21]` where the first
date's page has three valid questions and the second date is Absent,
`scrape_weekly_questions` returns exactly 3 records, all stamped with
date `"2024-02-20"` and numbered 1, 2, 3; and in general an Absent
date contributes no records and does not prevent later dates from
being processed. -/
theorem weekly_scrape_absent_date :
    ((scrape_weekly_questions scenarioFetch scenarioDates).length = 3 ∧
     (scrape_weekly_questions scenarioFetch scenarioDates).map QuestionRecord.date =
       [some "2024-02-20", some "2024-02-20", some "2024-02-20"] ∧
     (scrape_weekly_questions scenarioFetch scenarioDates).map QuestionRecord.question_no =
       [1, 2, 3]) ∧
    (∀ (fetch : String → Option Page) (d : String) (rest : List String),
      fetch d = none →
      scrape_weekly_questions fetch (d :: rest) = scrape_weekly_questions fetch rest) := by
  refine ⟨⟨rfl, rfl, rfl⟩, ?_⟩
  intro fetch d rest h
  simp [scrape_weekly_questions, scrape_date_wise, h]

/-- C2 witness: under an all-Absent fetch, dropping the leading Absent
date leaves the scrape of the remaining dates unchanged. -/
theorem weekly_scrape_absent_date_witness :
    (fun _ : String => (none : Option Page)) "2024-02-21" = none ∧
    scrape_weekly_questions (fun _ => none) ("2024-02-21" :: ["2024-02-22"]) =
      scrape_weekly_questions (fun _ => none) ["2024-02-22"] :=
  ⟨rfl, weekly_scrape_absent_date.2 (fun _ => none) "2024-02-21" ["2024-02-22"] rfl⟩

/-! ### Helper lemmas about the translator -/

theorem chunkChars_cons (l : List Char) (h : l ≠ []) :
    chunkChars l = l.take 4500 :: chunkChars (l.drop 4500) := by
  rw [chunkChars]
  simp only [dif_neg h]

theorem translateChunks_error (call : String → Except String String)
    (h : ∀ s, ∃ e, call s = .error e) :
    ∀ chunks, chunks ≠ [] → ∃ e, translateChunks call chunks = .error e := by
  intro chunks hne
  cases chunks with
  | nil => exact absurd rfl hne
  | cons chunk rest =>
    obtain ⟨e, he⟩ := h chunk
    exact ⟨e, by simp [translateChunks, he]⟩

theorem attemptOnce_error (call : String → Except String String) (text : String)
    (h : ∀ s, ∃ e, call s = .error e) :
    ∃ e, attemptOnce call text = .error e := by
  unfold attemptOnce
  split
  next hlen =>
    have hne : text.data ≠ [] := by
      intro hd
      have : text.length = 0 := by simp [String.length, hd]
      omega
    have hch : pyStrChunks text ≠ [] := by
      simp [pyStrChunks, chunkChars_cons text.data hne]
    obtain ⟨e, he⟩ := translateChunks_error call h (pyStrChunks text) hch
    exact ⟨e, by rw [he]⟩
  next =>
    obtain ⟨e, he⟩ := h text
    exact ⟨e, by rw [he]; rfl⟩

theorem ttwrGo_all_error (call : Nat → String → Except String String) (text : String)
    (h : ∀ a s, ∃ e, call a s = .error e) :
    ∀ attempts : List Nat, ttwrGo call text attempts = text := by
  intro attempts
  induction attempts with
  | nil => rfl
  | cons a rest ih =>
    obtain ⟨e, he⟩ := attemptOnce_error (call a) text (fun s => h a s)
    unfold ttwrGo
    rw [he]
    cases rest with
    | nil => rfl
    | cons b rs => exact ih

theorem ttwr_all_error (call : Nat → String → Except String String) (text : String)
    (h : ∀ a s, ∃ e, call a s = .error e) (n : Nat) :
    translate_text_with_retry call text n = text := by
  unfold translate_text_with_retry
  split
  · rfl
  · exact ttwrGo_all_error call text h (List.range n)

theorem translations_translate_no_client
    (call : String → Except String (Option String)) (text : String) :
    translations_translate false call text = text := by
  unfold translations_translate
  split
  · rfl
  · rfl

/-- C8: when every underlying translation call raises (which is also
the behaviour when the translation client is unavailable),
`DeepTranslatorGU.translate_question` returns a record equal to the
input in every field; and `Translator.translate_question` of
src/translations.py with no client likewise returns the input record —
in both models the failure is absorbed inside the translator, no
exception escapes. -/
theorem translation_fail_open (call : Nat → String → Except String String)
    (tcall : String → Except String (Option String)) (q : QuestionRecord)
    (h : ∀ a s, ∃ e, call a s = .error e) :
    translate_question call q = q ∧
    translations_translate_question false tcall q = q := by
  have httwr : ∀ s, translate_text_with_retry call s 3 = s :=
    fun s => ttwr_all_error call s h 3
  constructor
  · unfold translate_question translate_question_state
    simp only [httwr, List.map_id']
    split <;> split <;> rfl
  · unfold translations_translate_question
    simp only [translations_translate_no_client, List.map_id']

/-- C8 witness: an always-raising call oracle leaves `sampleRecord`
unchanged through both translators. -/
theorem translation_fail_open_witness :
    translate_question (fun _ _ => .error "offline") sampleRecord = sampleRecord ∧
    translations_translate_question false (fun _ => .error "offline") sampleRecord =
      sampleRecord :=
  translation_fail_open (fun _ _ => .error "offline") (fun _ => .error "offline")
    sampleRecord (fun _ _ => ⟨"offline", rfl⟩)

/-- C9: `DeepTranslatorGU.translate_question` never writes into its
input — in the state-passing embedding of its body every assignment
targets the `translated` copy, so the `question` local is returned
unchanged — and the returned record keeps the input's `question_no`
and `date` stamp for every call oracle. -/
theorem translate_preserves_frame (call : Nat → String → Except String String)
    (q : QuestionRecord) :
    (translate_question_state call (q, q)).1 = q ∧
    (translate_question call q).question_no = q.question_no ∧
    (translate_question call q).date = q.date := by
  refine ⟨rfl, ?_, ?_⟩ <;>
  · unfold translate_question translate_question_state
    dsimp only
    split <;> split <;> rfl

/-- C10: `scrape_weekly_questions` hands `main` a plain list, never a
dict; `main`'s first use of it, `scraped_data_map.values()`, therefore
raises `AttributeError` for every fetch oracle and date range, and the
run ends through the top-level exception handler with exit code 1. -/
theorem main_type_mismatch (fetch : String → Option Page) (dates : List String) :
    scrape_weekly_questions_value fetch dates =
      .pylist (scrape_weekly_questions fetch dates) ∧
    main_run fetch dates = .error "AttributeError: list object has no attribute values" ∧
    main_exit fetch dates = 1 :=
  ⟨rfl, rfl, rfl⟩

end CAScraper
